import Mathlib

/-!
Shallow embedding of onionbalance/status.py: the status-report renderer
(StatusSocketHandler.send_status), the connection handler (handle), and the
socket-server lifecycle (StatusSocket.__init__, cleanup_socket_file, close).

Python datetimes are modelled as a record of calendar fields; the
environment-dependent conversion datetime.fromtimestamp (epoch seconds to
local time) is modelled as an explicit function parameter fromts.
Python exceptions are modelled as an inductive type and fallible code as
Except values; OS interactions (unlink, bind) are modelled as injected
outcomes in an environment record.
-/

namespace Onionbalance

/-- A Python datetime value: calendar fields only (what strftime reads). -/
structure DateTime where
  year : Nat
  month : Nat
  day : Nat
  hour : Nat
  minute : Nat
  second : Nat
deriving DecidableEq, Repr

/-- An Instance as read by send_status: onion address, optional last-refresh
timestamp, introduction points (only their count is rendered), the tri-state
health flag is_healthy (Python True/False/None as some true/some false/none),
and the last health-check time in epoch seconds. -/
structure Instance where
  onion_address : String
  timestamp : Option DateTime
  introduction_points : List String
  is_healthy : Option Bool
  last_check_time : Int
deriving DecidableEq, Repr

/-- A Service as read by send_status: onion address, optional last-upload
timestamp, the health_check_conf dictionary restricted to its type key
(None disables the health display), and the list of instances. -/
structure Service where
  onion_address : String
  uploaded : Option DateTime
  health_check_conf_type : Option String
  instances : List Instance
deriving DecidableEq, Repr

/-- Zero-pad a number to two digits, as Python strftime does for
the fields m, d, H, M, S. -/
def pad2 (n : Nat) : String :=
  if n < 10 then "0" ++ toString n else toString n

/-- Zero-pad a year to four digits, as CPython strftime does for Y. -/
def pad4 (n : Nat) : String :=
  if n < 10 then "000" ++ toString n
  else if n < 100 then "00" ++ toString n
  else if n < 1000 then "0" ++ toString n
  else toString n

/-- strftime with the format string used for service and instance
timestamps in send_status (date, space, time). -/
def strftime_ymd_hms (t : DateTime) : String :=
  pad4 t.year ++ "-" ++ pad2 t.month ++ "-" ++ pad2 t.day ++ " " ++
    pad2 t.hour ++ ":" ++ pad2 t.minute ++ ":" ++ pad2 t.second

/-- strftime with the time-only format string used for the health suffix. -/
def strftime_hms (t : DateTime) : String :=
  pad2 t.hour ++ ":" ++ pad2 t.minute ++ ":" ++ pad2 t.second

/-- The timestamp-or-marker text of a service line (status.py lines 35-38):
the formatted uploaded time when present, else the literal marker. -/
def service_timestamp (service : Service) : String :=
  match service.uploaded with
  | some t => strftime_ymd_hms t
  | none => "[not uploaded]"

/-- One instance line of send_status (status.py lines 43-62): the offline or
refreshed-with-IP-count base line, then, when healthcheck is set, the up/down
suffix appended to that same line (response[-1] += ...); is_healthy = none
appends nothing. fromts models datetime.fromtimestamp (local time). -/
def instance_line (fromts : Int → DateTime) (healthcheck : Bool)
    (inst : Instance) : String :=
  let line :=
    match inst.timestamp with
    | none => "  " ++ inst.onion_address ++ ".onion [offline]"
    | some t =>
        "  " ++ inst.onion_address ++ ".onion " ++ strftime_ymd_hms t ++ " " ++
          toString inst.introduction_points.length ++ " IPs"
  if healthcheck then
    match inst.is_healthy with
    | some true =>
        line ++ " [up at " ++ strftime_hms (fromts inst.last_check_time) ++ "]"
    | some false =>
        line ++ " [down at " ++ strftime_hms (fromts inst.last_check_time) ++ "]"
    | none => line
  else line

/-- The block of response lines one service contributes (status.py lines
34-62): its own line, then one line per instance, with healthcheck computed
once per service from health_check_conf type being non-None. -/
def service_lines (fromts : Int → DateTime) (service : Service) : List String :=
  (service.onion_address ++ ".onion " ++ service_timestamp service)
    :: service.instances.map
        (instance_line fromts service.health_check_conf_type.isSome)

/-- The full response list built by send_status, including the final
response.append of the empty string (status.py lines 33-64). -/
def send_status_lines (fromts : Int → DateTime) (services : List Service) :
    List String :=
  (services.flatMap (service_lines fromts)) ++ [""]

/-- The text sent to the client (status.py line 65): the response list joined
with a newline; the UTF-8 encoding of this string is what sendall writes. -/
def send_status (fromts : Int → DateTime) (services : List Service) : String :=
  String.intercalate "\n" (send_status_lines fromts services)

/-- The health suffix of an instance line, as a standalone value: what the
healthcheck block of send_status appends to response[-1] (empty when the
health display is disabled or the health status is unknown). -/
def health_suffix (fromts : Int → DateTime) (healthcheck : Bool)
    (inst : Instance) : String :=
  if healthcheck then
    match inst.is_healthy with
    | some true => " [up at " ++ strftime_hms (fromts inst.last_check_time) ++ "]"
    | some false => " [down at " ++ strftime_hms (fromts inst.last_check_time) ++ "]"
    | none => ""
  else ""

/-- A fixed local-time conversion used for concrete evaluations: every epoch
maps to 1970-01-01 00:00:07. -/
def tloc0 : Int → DateTime := fun _ => ⟨1970, 1, 1, 0, 0, 7⟩

/-- A local-time conversion matching the C6 scenario: every epoch maps to a
datetime whose time of day is 11:05:02. -/
def tlocC6 : Int → DateTime := fun _ => ⟨2016, 5, 1, 11, 5, 2⟩

/-- A concrete offline instance (no last-refresh timestamp) whose health
status is known healthy. -/
def instOffline : Instance :=
  { onion_address := "def", timestamp := none, introduction_points := [],
    is_healthy := some true, last_check_time := 0 }

/-- A concrete refreshed, healthy instance. -/
def instUp : Instance :=
  { onion_address := "xyz", timestamp := some ⟨2016, 5, 1, 12, 0, 0⟩,
    introduction_points := ["a"], is_healthy := some true,
    last_check_time := 7 }

/-- A concrete service that has never been uploaded. -/
def svcNoUpload : Service :=
  { onion_address := "abc", uploaded := none,
    health_check_conf_type := none, instances := [] }

/-- The instance of the spec's worked scenario: def.onion, last refreshed
2016-05-01 11:00:00, three introduction points, healthy, with a last-check
epoch left abstract (1462093502) whose local rendering the scenario fixes
as 11:05:02. -/
def instC6 : Instance :=
  { onion_address := "def", timestamp := some ⟨2016, 5, 1, 11, 0, 0⟩,
    introduction_points := ["ip1", "ip2", "ip3"], is_healthy := some true,
    last_check_time := 1462093502 }

/-- The service of the spec's worked scenario: abc.onion, uploaded
2016-05-01 11:08:56, health checks configured, one instance. -/
def svcC6 : Service :=
  { onion_address := "abc", uploaded := some ⟨2016, 5, 1, 11, 8, 56⟩,
    health_check_conf_type := some "http", instances := [instC6] }

theorem ne_empty_of_length_pos (s : String) (h : 0 < s.length) : s ≠ "" := by
  intro he
  rw [he] at h
  exact Nat.lt_irrefl 0 h

/-- A Python OSError, identified by its errno (socket.error is an alias of
OSError in Python 3, so the bind failure cases collapse to this type). -/
structure OSErr where
  errno : Nat
deriving DecidableEq, Repr

/-- errno.ENOENT. -/
def ENOENT : Nat := 2

/-- The Python exceptions that arise in this module: OSError (and its
subclasses), NameError from evaluating an undefined name, and AttributeError
from reading a missing attribute. All are subclasses of Exception. -/
inductive PyExc where
  | osError (e : OSErr)
  | nameError (n : String)
  | attributeError (n : String)
deriving DecidableEq, Repr

/-- StatusSocket.cleanup_socket_file (status.py lines 116-125), as a function
of the outcome of os.unlink on the socket path: an ENOENT failure is
swallowed (the file was already gone), any other OSError is re-raised. -/
def cleanup_socket_file (unlinkResult : Except OSErr Unit) :
    Except OSErr Unit :=
  match unlinkResult with
  | .ok () => .ok ()
  | .error e => if e.errno = ENOENT then .ok () else .error e

/-- The names visible from inside StatusSocket.__init__: its locals (self and
the config parameter) and the module globals of status.py. The name the
except-branch logging call references is not among them. -/
def init_scope_names : List String :=
  ["self", "config", "datetime", "os", "errno", "threading", "socket",
   "BaseRequestHandler", "ThreadingMixIn", "UnixStreamServer", "log",
   "logger", "StatusSocketHandler", "ThreadingSocketServer", "StatusSocket"]

/-- Python name resolution inside __init__: an identifier not bound in any
enclosing scope raises NameError when evaluated. -/
def eval_name (n : String) : Except PyExc String :=
  if init_scope_names.contains n then .ok n else .error (.nameError n)

instance {ε α : Type} [DecidableEq ε] [DecidableEq α] :
    DecidableEq (Except ε α) := fun a b =>
  match a, b with
  | Except.error x, Except.error y =>
      if h : x = y then isTrue (h ▸ rfl)
      else isFalse (fun hc => h (by injection hc))
  | Except.ok x, Except.ok y =>
      if h : x = y then isTrue (h ▸ rfl)
      else isFalse (fun hc => h (by injection hc))
  | Except.error _, Except.ok _ => isFalse (fun hc => by injection hc)
  | Except.ok _, Except.error _ => isFalse (fun hc => by injection hc)

/-- The OS-level outcomes __init__ is exposed to: the result of os.unlink on
the configured path, and the result of binding the listening socket
(ThreadingSocketServer construction). -/
structure InitEnv where
  unlinkResult : Except OSErr Unit
  bindResult : Except OSErr Unit
deriving DecidableEq, Repr

/-- The observable state a constructed StatusSocket is left in: whether the
self.server attribute was assigned (bind succeeded) and whether the accept
loop is serving. -/
structure SocketState where
  hasServer : Bool
  serving : Bool
  fileExists : Bool
deriving DecidableEq, Repr

/-- StatusSocket.__init__ (status.py lines 87-114): run cleanup_socket_file
(whose non-ENOENT failures propagate), then try to bind and start serving;
on an OSError from the bind, the except branch evaluates the argument
status_socket_location of its logging call, a name bound nowhere, before
logger.error can run — so that evaluation decides what the branch does. -/
def statusSocket_init (env : InitEnv) : Except PyExc SocketState :=
  match cleanup_socket_file env.unlinkResult with
  | .error e => .error (.osError e)
  | .ok () =>
      match env.bindResult with
      | .ok () =>
          .ok { hasServer := true, serving := true, fileExists := true }
      | .error _ =>
          match eval_name "status_socket_location" with
          | .error exc => .error exc
          | .ok _ =>
              .ok { hasServer := false, serving := false, fileExists := false }

/-- StatusSocketHandler.handle (status.py lines 67-71), as a function of the
outcome of self.send_status() on this connection: every exception is caught
and recorded as a logged warning; the handler itself always returns
normally. The first component is what handle raises (never anything), the
second the warning it logged. -/
def handle (send_result : Except PyExc Unit) :
    Except PyExc Unit × Option PyExc :=
  match send_result with
  | .ok () => (.ok (), none)
  | .error e => (.ok (), some e)

/-- The serving loop dispatching one handler per accepted connection, as a
function of each connection's send_status outcome (connections are handled
independently; the list order is the acceptance order). -/
def serve_loop (results : List (Except PyExc Unit)) :
    List (Except PyExc Unit × Option PyExc) :=
  results.map handle

/-- Python attribute access self.server: AttributeError when __init__ never
assigned it (the bind failed before the assignment). -/
def getattr_server (st : SocketState) : Except PyExc Unit :=
  if st.hasServer then .ok () else .error (.attributeError "server")

/-- os.unlink on the socket path during close: an injected failure when inj
is given; otherwise it removes the file when present and fails with ENOENT
when the file is already gone. -/
def os_unlink (st : SocketState) (inj : Option OSErr) :
    Except OSErr Unit × SocketState :=
  match inj with
  | some e => (.error e, st)
  | none =>
      if st.fileExists then (.ok (), { st with fileExists := false })
      else (.error { errno := ENOENT }, st)

/-- What one call to close leaves behind: the exception it raises (never
any), the resulting state, and whether the except-OSError branch logged. -/
structure CloseOutcome where
  result : Except PyExc Unit
  state : SocketState
  logged : Bool
deriving DecidableEq, Repr

/-- StatusSocket.close (status.py lines 127-138): the try block touches
self.server (shutdown and server_close stop the accept loop), then runs
cleanup_socket_file on the unlink outcome; an AttributeError is passed over
silently, an OSError is logged; either way close returns normally. -/
def close_model (st : SocketState) (inj : Option OSErr) : CloseOutcome :=
  match getattr_server st with
  | .error _ => { result := .ok (), state := st, logged := false }
  | .ok () =>
      let st1 := { st with serving := false }
      let u := os_unlink st1 inj
      match cleanup_socket_file u.1 with
      | .ok () => { result := .ok (), state := u.2, logged := false }
      | .error _ => { result := .ok (), state := u.2, logged := true }

/-- Claim C1, failing input: when the bind raises OSError (errno 13,
permission denied, after a clean unlink; or errno 2 after an ENOENT unlink),
StatusSocket.__init__ does not log and continue: the except branch evaluates
the undefined name status_socket_location and a NameError propagates out of
the constructor to the owning process. -/
theorem c1_bind_failure_raises_nameerror :
    statusSocket_init { unlinkResult := .ok (), bindResult := .error ⟨13⟩ }
      = .error (.nameError "status_socket_location")
    ∧ statusSocket_init
        { unlinkResult := .error ⟨ENOENT⟩, bindResult := .error ⟨2⟩ }
      = .error (.nameError "status_socket_location") := by
  constructor <;> rfl

/-- Claim C2, counterexample: on the snapshot with zero services the
rendered output is the empty string, not the single-newline string the claim
requires. -/
theorem c2_counterexample :
    send_status tloc0 [] = "" ∧ send_status tloc0 [] ≠ "\n" := by
  constructor
  · rfl
  · decide

/-- Claim C2 (amended): for every snapshot containing zero services the
rendered output is the empty string — zero bytes once encoded — because the
response list is just the single empty terminator element and joining a
one-element list inserts no newline. -/
theorem c2_empty_snapshot_renders_empty (fromts : Int → DateTime) :
    send_status fromts [] = ""
    ∧ (send_status fromts []).utf8ByteSize = 0 := by
  constructor <;> rfl

/-- Claim C3, counterexample: an instance with no last-refresh timestamp
whose service has health checks configured and whose health status is known
gets the health suffix appended after the offline marker, so its line does
not end in the literal offline marker and does contain a health suffix. -/
theorem c3_counterexample :
    instOffline.timestamp = none
    ∧ instance_line tloc0 true instOffline
        = "  def.onion [offline] [up at 00:00:07]"
    ∧ instance_line tloc0 true instOffline ≠ "  def.onion [offline]" := by
  refine ⟨rfl, rfl, ?_⟩
  decide

/-- Claim C3 (amended): for every instance whose last-refresh timestamp is
absent, the rendered line is the two-space-indented offline line followed by
the health suffix; it omits the introduction-point count, and it is exactly
the offline line (ending in the offline marker, with no health suffix)
whenever the service's health-check kind is null or the instance's health
status is unknown — but when health checks are configured and the status is
known, the suffix is appended even to the offline line. -/
theorem c3_offline_line (fromts : Int → DateTime) (healthcheck : Bool)
    (inst : Instance) (h : inst.timestamp = none) :
    instance_line fromts healthcheck inst
      = ("  " ++ inst.onion_address ++ ".onion [offline]")
          ++ health_suffix fromts healthcheck inst
    ∧ (healthcheck = false ∨ inst.is_healthy = none →
        instance_line fromts healthcheck inst
          = "  " ++ inst.onion_address ++ ".onion [offline]") := by
  refine ⟨?_, ?_⟩
  · cases healthcheck <;> rcases hh : inst.is_healthy with _ | b <;>
      (try cases b) <;>
        simp [instance_line, health_suffix, h, hh] <;>
          simp only [String.append_assoc]
  · intro hcase
    rcases hcase with hc | hn
    · subst hc
      simp [instance_line, health_suffix, h]
    · cases healthcheck <;> simp [instance_line, health_suffix, h, hn]

/-- Witness for C3's amended theorem at a concrete offline instance. -/
theorem c3_witness :
    instance_line tloc0 true instOffline
      = ("  " ++ instOffline.onion_address ++ ".onion [offline]")
          ++ health_suffix tloc0 true instOffline :=
  (c3_offline_line tloc0 true instOffline rfl).1

/-- Claim C4: every instance line is the health-free base line followed by
the health suffix; the suffix is non-empty exactly when the service's
health-check kind is non-null and the instance's health status is healthy or
unhealthy, and an unknown health status appends nothing. -/
theorem c4_health_suffix_iff (fromts : Int → DateTime) (healthcheck : Bool)
    (inst : Instance) :
    instance_line fromts healthcheck inst
      = instance_line fromts false inst
          ++ health_suffix fromts healthcheck inst
    ∧ (health_suffix fromts healthcheck inst ≠ ""
        ↔ healthcheck = true ∧ inst.is_healthy.isSome = true)
    ∧ (inst.is_healthy = none →
        instance_line fromts healthcheck inst
          = instance_line fromts false inst) := by
  have hup : ∀ s : String,
      (" [up at " ++ s ++ "]") ≠ "" := by
    intro s
    apply ne_empty_of_length_pos
    rw [String.length_append, String.length_append]
    have h8 : (" [up at " : String).length = 8 := rfl
    omega
  have hdown : ∀ s : String,
      (" [down at " ++ s ++ "]") ≠ "" := by
    intro s
    apply ne_empty_of_length_pos
    rw [String.length_append, String.length_append]
    have h10 : (" [down at " : String).length = 10 := rfl
    omega
  refine ⟨?_, ?_, ?_⟩
  · cases healthcheck <;> rcases hh : inst.is_healthy with _ | b <;>
      (try cases b) <;>
        simp [instance_line, health_suffix, hh] <;>
          simp only [String.append_assoc]
  · cases healthcheck <;> rcases hh : inst.is_healthy with _ | b <;>
      (try cases b) <;>
        simp [health_suffix, hh] <;>
          first
          | exact hup (strftime_hms (fromts inst.last_check_time))
          | exact hdown (strftime_hms (fromts inst.last_check_time))
  · intro hn
    cases healthcheck <;> simp [instance_line, health_suffix, hn]

/-- Witness for C4 at a concrete healthy instance with health checks on. -/
theorem c4_witness :
    instance_line tloc0 true instUp
      = instance_line tloc0 false instUp ++ health_suffix tloc0 true instUp :=
  (c4_health_suffix_iff tloc0 true instUp).1

/-- Claim C5: for every service in the snapshot, the response contains the
line made of its address, the onion suffix, and its timestamp text — which
is the strftime-formatted last-upload time when present and the literal
not-uploaded marker otherwise. -/
theorem c5_service_line (fromts : Int → DateTime) (services : List Service)
    (svc : Service) (h : svc ∈ services) :
    (svc.onion_address ++ ".onion " ++ service_timestamp svc)
      ∈ send_status_lines fromts services
    ∧ (svc.uploaded = none → service_timestamp svc = "[not uploaded]")
    ∧ (∀ t, svc.uploaded = some t →
        service_timestamp svc = strftime_ymd_hms t) := by
  refine ⟨?_, ?_, ?_⟩
  · exact List.mem_append_left _
      (List.mem_flatMap.mpr ⟨svc, h, by simp [service_lines]⟩)
  · intro h0
    simp [service_timestamp, h0]
  · intro t ht
    simp [service_timestamp, ht]

/-- Witness for C5 at a concrete never-uploaded service. -/
theorem c5_witness :
    (svcNoUpload.onion_address ++ ".onion " ++ service_timestamp svcNoUpload)
      ∈ send_status_lines tloc0 [svcNoUpload] :=
  (c5_service_line tloc0 [svcNoUpload] svcNoUpload (by simp)).1

/-- Claim C6: on the spec's worked scenario — service abc.onion uploaded
2016-05-01 11:08:56 with one healthy instance def.onion refreshed
2016-05-01 11:00:00 holding 3 introduction points, health checks configured,
last check rendering locally as 11:05:02 — the response is exactly the
service line, the indented instance line with IP count and up-suffix, and
the empty terminator. -/
theorem c6_scenario (fromts : Int → DateTime)
    (h1 : (fromts 1462093502).hour = 11)
    (h2 : (fromts 1462093502).minute = 5)
    (h3 : (fromts 1462093502).second = 2) :
    send_status_lines fromts [svcC6]
      = ["abc.onion 2016-05-01 11:08:56",
         "  def.onion 2016-05-01 11:00:00 3 IPs [up at 11:05:02]", ""]
    ∧ send_status fromts [svcC6]
      = "abc.onion 2016-05-01 11:08:56\n" ++
          "  def.onion 2016-05-01 11:00:00 3 IPs [up at 11:05:02]\n" := by
  have hts : strftime_hms (fromts 1462093502) = "11:05:02" := by
    unfold strftime_hms
    rw [h1, h2, h3]
    decide
  have hlines : send_status_lines fromts [svcC6]
      = ["abc.onion 2016-05-01 11:08:56",
         "  def.onion 2016-05-01 11:00:00 3 IPs [up at 11:05:02]", ""] := by
    simp [send_status_lines, service_lines, svcC6, instC6, instance_line,
      service_timestamp, hts]
    all_goals decide
  refine ⟨hlines, ?_⟩
  unfold send_status
  rw [hlines]
  decide

/-- Witness for C6 with a concrete local-time conversion whose time of day
is 11:05:02. -/
theorem c6_witness :
    send_status_lines tlocC6 [svcC6]
      = ["abc.onion 2016-05-01 11:08:56",
         "  def.onion 2016-05-01 11:00:00 3 IPs [up at 11:05:02]", ""]
    ∧ send_status tlocC6 [svcC6]
      = "abc.onion 2016-05-01 11:08:56\n" ++
          "  def.onion 2016-05-01 11:00:00 3 IPs [up at 11:05:02]\n" :=
  c6_scenario tlocC6 rfl rfl rfl

/-- Claim C7: the renderer is a pure function of the snapshot — rendering
the same immutable snapshot twice yields the same string and byte-identical
UTF-8 output. -/
theorem c7_deterministic (fromts : Int → DateTime)
    (snap1 snap2 : List Service) (h : snap1 = snap2) :
    send_status fromts snap1 = send_status fromts snap2
    ∧ (send_status fromts snap1).toUTF8 = (send_status fromts snap2).toUTF8 := by
  subst h
  exact ⟨rfl, rfl⟩

/-- Witness for C7 at a concrete snapshot. -/
theorem c7_witness :
    send_status tloc0 [svcNoUpload] = send_status tloc0 [svcNoUpload]
    ∧ (send_status tloc0 [svcNoUpload]).toUTF8
        = (send_status tloc0 [svcNoUpload]).toUTF8 :=
  c7_deterministic tloc0 [svcNoUpload] [svcNoUpload] rfl

/-- Claim C8: the per-connection handler catches every exception from
rendering or writing, returns normally with the exception logged as a
warning, and the serving loop therefore handles every connection with no
connection's fault escaping. -/
theorem c8_handler_catches (results : List (Except PyExc Unit)) :
    (∀ r, (handle r).1 = Except.ok ())
    ∧ (∀ e, handle (Except.error e) = (Except.ok (), some e))
    ∧ (serve_loop results).length = results.length
    ∧ (∀ out ∈ serve_loop results, out.1 = Except.ok ()) := by
  have hok : ∀ r, (handle r).1 = Except.ok () := by
    intro r
    rcases r with e | u
    · rfl
    · cases u; rfl
  refine ⟨hok, fun e => rfl, List.length_map _ _, ?_⟩
  intro out hout
  rcases List.mem_map.mp hout with ⟨r, _, rfl⟩
  exact hok r

/-- Witness for C8 at a broken-pipe failure on one connection. -/
theorem c8_witness :
    (handle (Except.error (PyExc.osError ⟨32⟩))).1 = Except.ok () :=
  (c8_handler_catches []).1 (Except.error (PyExc.osError ⟨32⟩))

/-- Claim C9: removing the stale socket file treats a missing file (ENOENT)
as success, succeeds when the unlink succeeds, and re-raises any other
OSError — which then propagates out of the constructor as fatal for server
startup. -/
theorem c9_cleanup_enoent :
    cleanup_socket_file (Except.ok ()) = Except.ok ()
    ∧ (∀ e : OSErr, e.errno = ENOENT →
        cleanup_socket_file (Except.error e) = Except.ok ())
    ∧ (∀ e : OSErr, e.errno ≠ ENOENT →
        cleanup_socket_file (Except.error e) = Except.error e)
    ∧ (∀ env : InitEnv, ∀ e : OSErr, env.unlinkResult = Except.error e →
        e.errno ≠ ENOENT →
        statusSocket_init env = Except.error (PyExc.osError e)) := by
  refine ⟨rfl, ?_, ?_, ?_⟩
  · intro e he
    simp [cleanup_socket_file, he]
  · intro e he
    simp [cleanup_socket_file, he]
  · intro env e henv he
    unfold statusSocket_init
    rw [henv]
    simp [cleanup_socket_file, he]

/-- Witness for C9 at a permission-denied unlink failure. -/
theorem c9_witness :
    cleanup_socket_file (Except.error ⟨13⟩) = Except.error ⟨13⟩ :=
  c9_cleanup_enoent.2.2.1 ⟨13⟩ (by decide)

theorem close_model_result_ok (st : SocketState) (inj : Option OSErr) :
    (close_model st inj).result = Except.ok () := by
  unfold close_model
  split
  · rfl
  · dsimp only
    split <;> rfl

/-- Claim C10: close never raises — on any state and any unlink outcome it
returns normally; a second close in succession also returns normally; when
the server attribute was never assigned (bind failed) close is a silent
no-op; and a non-ENOENT unlink failure during close is logged while close
still completes. -/
theorem c10_close_safe (st : SocketState) (inj : Option OSErr) :
    (close_model st inj).result = Except.ok ()
    ∧ (∀ inj2, (close_model (close_model st inj).state inj2).result
        = Except.ok ())
    ∧ (st.hasServer = false →
        close_model st inj
          = { result := Except.ok (), state := st, logged := false })
    ∧ (∀ e : OSErr, st.hasServer = true → e.errno ≠ ENOENT →
        (close_model st (some e)).result = Except.ok ()
        ∧ (close_model st (some e)).logged = true) := by
  refine ⟨close_model_result_ok st inj,
    fun inj2 => close_model_result_ok _ inj2, ?_, ?_⟩
  · intro h
    simp [close_model, getattr_server, h]
  · intro e hs he
    constructor
    · exact close_model_result_ok st (some e)
    · simp [close_model, getattr_server, hs, os_unlink,
        cleanup_socket_file, he]

/-- Witness for C10: a bound, serving server whose unlink fails with
permission denied still closes normally and logs the failure. -/
theorem c10_witness :
    (close_model ⟨true, true, true⟩ (some ⟨13⟩)).result = Except.ok ()
    ∧ (close_model ⟨true, true, true⟩ (some ⟨13⟩)).logged = true :=
  (c10_close_safe ⟨true, true, true⟩ (some ⟨13⟩)).2.2.2 ⟨13⟩ rfl (by decide)

end Onionbalance
